import Mathlib

/-!
Verification of the packaging manifest `data-services/smd-service/src/setup.py`
of the decentralized-energy-trading repository.

The source file is a declarative setuptools manifest.  We embed it as a small
Python-expression AST (`PyValue`, `Stmt`) transcribed directly from the source,
together with executable models of the platform semantics the manifest relies
on: setuptools package-name exclusion (case-sensitive fnmatch globbing, as in
`setuptools.PackageFinder` / `fnmatch.fnmatchcase`) and PEP 440 version
specifier satisfaction for the `python_requires` field.
-/

/-- A Python expression value as it can appear as a `setup()` keyword argument.
Besides the shapes occurring in the source (string literals, lists of strings,
a keyword call, a dict), the AST has a `var` node for identifier references so
that staticness/environment predicates below are not vacuous. -/
inductive PyValue where
  | str (s : String)
  | strList (xs : List String)
  | var (name : String)
  | call (fn : String) (kwargs : List (String × PyValue))
  | dict (entries : List (String × PyValue))
deriving Repr

/-- A top-level Python statement shape.  The source file contains only one
from-import statement and an expression-statement call; the other
constructors exist so that "no other statements, definitions, or control
flow" is a real check. -/
inductive Stmt where
  | fromImport (module : String) (names : List String)
  | exprCall (fn : String) (kwargs : List (String × PyValue))
  | assign (target : String) (value : PyValue)
  | funcDef (name : String)
  | classDef (name : String)
  | ifStmt
  | whileStmt
  | forStmt
deriving Repr

/-- The keyword arguments of the `setup(...)` call, transcribed verbatim from
`setup.py` lines 3-18. -/
def setupArgs : List (String × PyValue) :=
  [ ("name", .str "importer"),
    ("version", .str "0.1.0"),
    ("python_requires", .str ">=3"),
    ("packages", .call "find_packages" [("exclude", .strList ["docs", "tests*"])]),
    ("entry_points", .dict [("console_scripts",
        .strList ["glueservice = glueservice.__main__:main"])]),
    ("author", .str "Marco Peise"),
    ("author_email", .str "mp@ise.tu-berlin.de"),
    ("license", .str "MIT License") ]

/-- The `setup(...)` keyword arguments with the three authorship/license
fields left parametric; used to state that those fields have no effect on the
rest of the descriptor. -/
def setupArgsWith (author author_email license : String) : List (String × PyValue) :=
  [ ("name", .str "importer"),
    ("version", .str "0.1.0"),
    ("python_requires", .str ">=3"),
    ("packages", .call "find_packages" [("exclude", .strList ["docs", "tests*"])]),
    ("entry_points", .dict [("console_scripts",
        .strList ["glueservice = glueservice.__main__:main"])]),
    ("author", .str author),
    ("author_email", .str author_email),
    ("license", .str license) ]

/-- The two top-level statements of `setup.py`: the import on line 1 and the
`setup(...)` call on lines 3-18. -/
def setupPyStatements : List Stmt :=
  [ .fromImport "setuptools" ["setup", "find_packages"],
    .exprCall "setup" setupArgs ]

/-- The text of `setup.py`, line by line (18 lines). -/
def setupPyLines : List String :=
  [ "from setuptools import setup, find_packages",
    "",
    "setup(",
    "    name = 'importer',",
    "    version = '0.1.0',",
    "    python_requires = '>=3',",
    "    packages = find_packages(",
    "        exclude = ['docs','tests*']",
    "    ),",
    "    entry_points = \x7b",
    "        'console_scripts': [",
    "            'glueservice = glueservice.__main__:main'",
    "        ]",
    "    \x7d,",
    "    author = 'Marco Peise',",
    "    author_email = 'mp@ise.tu-berlin.de',",
    "    license = 'MIT License'",
    ")" ]

/-- Look up a keyword argument by name. -/
def lookupArg (k : String) (args : List (String × PyValue)) : Option PyValue :=
  List.lookup k args

/-- Whether a `PyValue` is a string literal. -/
def PyValue.isStr : PyValue → Bool
  | .str _ => true
  | _ => false

/-- The field `k` of the manifest holds a string literal. -/
def fieldIsString (k : String) : Bool :=
  match lookupArg k setupArgs with
  | some (.str _) => true
  | _ => false

/-! ### Package-exclusion semantics (`find_packages(exclude=...)`)

setuptools filters discovered package names with `fnmatch.fnmatchcase`
against each exclusion pattern.  The patterns in the source use only literal
characters and `*`, so we model exactly that fragment: `*` matches any
(possibly empty) sequence of characters, every other pattern character
matches itself. -/

/-- Case-sensitive glob matching on character lists: `*` matches any
(possibly empty) sequence of characters, so the rest of the pattern must
match some suffix of the name; any other pattern character matches only
itself. -/
def globMatchL : List Char → List Char → Bool
  | [], n => n.isEmpty
  | p :: ps, n =>
    if p == '*' then n.tails.any (fun t => globMatchL ps t)
    else
      match n with
      | [] => false
      | c :: ns => p == c && globMatchL ps ns

/-- `fnmatch.fnmatchcase` on strings (for the `*`-and-literals fragment). -/
def fnmatchCase (pat name : String) : Bool :=
  globMatchL pat.data name.data

/-- The exclusion patterns handed to `find_packages`, extracted from the
`packages` argument of the `setup` call. -/
def excludePatterns : List String :=
  match lookupArg "packages" setupArgs with
  | some (.call "find_packages" kwargs) =>
    match List.lookup "exclude" kwargs with
    | some (.strList pats) => pats
    | _ => []
  | _ => []

/-- A discovered package name is excluded from the distribution iff it
matches one of the exclusion patterns. -/
def isExcluded (name : String) : Bool :=
  excludePatterns.any (fun pat => fnmatchCase pat name)

/-! ### Console entry points -/

/-- Split a character list at the first `=`, returning the parts before and
after it (the whole list and `[]` when there is no `=`). -/
def splitEq : List Char → List Char × List Char
  | [] => ([], [])
  | c :: rest =>
    if c == '=' then ([], rest)
    else
      let (l, r) := splitEq rest
      (c :: l, r)

/-- Strip leading and trailing spaces. -/
def trimSpaces (cs : List Char) : List Char :=
  ((cs.dropWhile (· == ' ')).reverse.dropWhile (· == ' ')).reverse

/-- Parse an entry-point specification `"name = module:attr"` into the
command name and the target callable. -/
def parseEntryPoint (spec : String) : String × String :=
  let (l, r) := splitEq spec.data
  (⟨trimSpaces l⟩, ⟨trimSpaces r⟩)

/-- The groups declared under `entry_points` (the keys of the dict). -/
def entryPointGroups : List String :=
  match lookupArg "entry_points" setupArgs with
  | some (.dict entries) => entries.map (·.1)
  | _ => []

/-- The raw `console_scripts` specification strings of the manifest. -/
def consoleScriptSpecs : List String :=
  match lookupArg "entry_points" setupArgs with
  | some (.dict entries) =>
    match List.lookup "console_scripts" entries with
    | some (.strList specs) => specs
    | _ => []
  | _ => []

/-- The console commands the installer registers: each specification parsed
into a command name and its target callable. -/
def consoleCommands : List (String × String) :=
  consoleScriptSpecs.map parseEntryPoint

/-- An entry-point specification is well formed when it yields a nonempty
command name and a nonempty target that names an attribute (`module:attr`). -/
def isWellFormedSpec (spec : String) : Bool :=
  let (cmd, tgt) := parseEntryPoint spec
  !cmd.data.isEmpty && !tgt.data.isEmpty && tgt.data.contains ':'

/-! ### `python_requires` specifier semantics (PEP 440)

The manifest declares `python_requires = '>=3'`.  PEP 440 compares release
segments componentwise, padding the shorter one with zeros, so `3.0`
satisfies `>=3`. -/

/-- Parse a dotted numeric version string into its components, accumulating
decimal digits and splitting at dots. -/
def parseVerAux : List Char → Nat → List Nat
  | [], acc => [acc]
  | c :: rest, acc =>
    if c == '.' then acc :: parseVerAux rest 0
    else if c.isDigit then parseVerAux rest (acc * 10 + (c.toNat - 48))
    else parseVerAux rest acc

/-- Parse a version string such as `"3"` or `"3.6"` into `[3]` / `[3, 6]`. -/
def parseVersionNums (s : String) : List Nat :=
  parseVerAux s.data 0

/-- All remaining release components are zero. -/
def allZero : List Nat → Bool
  | [] => true
  | b :: bs => b == 0 && allZero bs

/-- PEP 440 comparison of release segments: componentwise, with the shorter
segment padded with zeros. -/
def cmpVer : List Nat → List Nat → Ordering
  | [], bs => if allZero bs then .eq else .lt
  | a :: as, [] => if a = 0 then cmpVer as [] else .gt
  | a :: as, b :: bs =>
    if a < b then .lt else if b < a then .gt else cmpVer as bs

/-- Whether a version (as release components) satisfies a single PEP 440
version specifier such as `">=3"`. -/
def satisfiesRequirement (req : String) (v : List Nat) : Bool :=
  match req.data with
  | '>' :: '=' :: rest => !(cmpVer v (parseVersionNums ⟨rest⟩) == Ordering.lt)
  | '<' :: '=' :: rest => !(cmpVer v (parseVersionNums ⟨rest⟩) == Ordering.gt)
  | '=' :: '=' :: rest => cmpVer v (parseVersionNums ⟨rest⟩) == Ordering.eq
  | '>' :: rest => cmpVer v (parseVersionNums ⟨rest⟩) == Ordering.gt
  | '<' :: rest => cmpVer v (parseVersionNums ⟨rest⟩) == Ordering.lt
  | _ => false

/-- The declared `python_requires` field of the manifest. -/
def pythonRequires : String :=
  match lookupArg "python_requires" setupArgs with
  | some (.str s) => s
  | _ => ""

/-! ### Staticness and environment-variable predicates -/

mutual
/-- A `PyValue` is static when it is built only from literals: no identifier
references occur anywhere inside it. -/
def PyValue.isStatic : PyValue → Bool
  | .str _ => true
  | .strList _ => true
  | .var _ => false
  | .call _ kwargs => isStaticKwargs kwargs
  | .dict entries => isStaticKwargs entries

/-- All values of a keyword-argument (or dict-entry) list are static. -/
def isStaticKwargs : List (String × PyValue) → Bool
  | [] => true
  | (_, v) :: rest => v.isStatic && isStaticKwargs rest
end

/-- Identifiers and callables that access the process environment. -/
def envAccessNames : List String :=
  ["os.environ", "os.getenv", "os.putenv", "environ", "getenv", "putenv"]

mutual
/-- A `PyValue` references an environment variable when it mentions an
environment accessor as a variable or as a called function. -/
def PyValue.referencesEnv : PyValue → Bool
  | .str _ => false
  | .strList _ => false
  | .var n => envAccessNames.contains n
  | .call fn kwargs => envAccessNames.contains fn || referencesEnvKwargs kwargs
  | .dict entries => referencesEnvKwargs entries

/-- Some value of a keyword-argument list references an environment
variable. -/
def referencesEnvKwargs : List (String × PyValue) → Bool
  | [] => false
  | (_, v) :: rest => v.referencesEnv || referencesEnvKwargs rest
end

/-- A statement is purely declarative: an import or an expression call, not
an assignment, definition, or control flow. -/
def Stmt.isDeclarative : Stmt → Bool
  | .fromImport _ _ => true
  | .exprCall _ _ => true
  | _ => false


/-! ### Helper lemmas -/

/-- A glob pattern without `*` matches exactly itself. -/
theorem globMatchL_noStar (p : List Char) (hp : '*' ∉ p) :
    ∀ n, globMatchL p n = true ↔ n = p := by
  induction p with
  | nil =>
    intro n
    cases n <;> simp [globMatchL]
  | cons q ps ih =>
    intro n
    have hq : (q == '*') = false := by
      simp only [beq_eq_false_iff_ne]
      intro h
      exact hp (h ▸ List.mem_cons_self q ps)
    have hps : '*' ∉ ps := fun h => hp (List.mem_cons_of_mem q h)
    cases n with
    | nil =>
      simp [globMatchL, hq]
    | cons c ns =>
      simp only [globMatchL, hq, Bool.false_eq_true, if_false, Bool.and_eq_true,
        beq_iff_eq, ih hps ns, List.cons.injEq]
      exact ⟨fun ⟨h1, h2⟩ => ⟨h1.symm, h2⟩, fun ⟨h1, h2⟩ => ⟨h1.symm, h2⟩⟩

/-- Matching the literal pattern `"docs"` is exactly equality with `"docs"`. -/
theorem fnmatchCase_docs (name : String) :
    fnmatchCase "docs" name = true ↔ name = "docs" := by
  have h := globMatchL_noStar "docs".data (by decide) name.data
  unfold fnmatchCase at *
  constructor
  · intro hm
    exact String.ext (h.mp hm)
  · rintro rfl
    exact h.mpr rfl

/-! ### The claims -/

/-- Claim C1: the manifest registers exactly one console command, named
`glueservice`, whose declared target callable is `glueservice.__main__:main`;
no other console command (and no other entry-point group) is declared. -/
theorem c1_single_console_command :
    consoleCommands = [("glueservice", "glueservice.__main__:main")] ∧
    entryPointGroups = ["console_scripts"] := by
  exact ⟨by decide, by decide⟩

/-- Claim C2: the declared package name field of the manifest is the literal
string `"importer"`. -/
theorem c2_package_name :
    lookupArg "name" setupArgs = some (.str "importer") := rfl

/-- Claim C3: a discovered package name is excluded from the built
distribution iff it is exactly `"docs"` or matches the glob `"tests*"`;
every other name is included. -/
theorem c3_exclusion_policy (name : String) :
    isExcluded name = true ↔ (name = "docs" ∨ fnmatchCase "tests*" name = true) := by
  have hpats : excludePatterns = ["docs", "tests*"] := rfl
  rw [isExcluded, hpats]
  simp [fnmatchCase_docs name]

/-- Claim C4: the declared version field is `"0.1.0"` and the declared
minimum language version requirement field is `">=3"`. -/
theorem c4_version_fields :
    lookupArg "version" setupArgs = some (.str "0.1.0") ∧
    lookupArg "python_requires" setupArgs = some (.str ">=3") :=
  ⟨rfl, rfl⟩

/-- Claim C5: every enumerated metadata field (name, version,
python_requires, author, author_email, license) holds a string literal, and
the single entry-point specification is a well-formed string. -/
theorem c5_fields_are_strings :
    (["name", "version", "python_requires", "author",
      "author_email", "license"].all fieldIsString) = true ∧
    consoleScriptSpecs.length = 1 ∧
    consoleScriptSpecs.all isWellFormedSpec = true := by
  exact ⟨rfl, rfl, by decide⟩

/-- Claim C6: no argument of the `setup` call introduces or references an
environment variable. -/
theorem c6_no_environment_variables :
    referencesEnvKwargs setupArgs = false := rfl

/-- Claim C7: the source file is 18 lines consisting only of one import
statement and one `setup` call whose arguments are constants; there are no
other statements, definitions, or control flow. -/
theorem c7_declarative_only :
    setupPyLines.length = 18 ∧
    setupPyStatements =
      [Stmt.fromImport "setuptools" ["setup", "find_packages"],
       Stmt.exprCall "setup" setupArgs] ∧
    setupPyStatements.all Stmt.isDeclarative = true ∧
    isStaticKwargs setupArgs = true :=
  ⟨rfl, rfl, rfl, rfl⟩

/-- Claim C8: the authorship and license fields are `"Marco Peise"`,
`"mp@ise.tu-berlin.de"` and `"MIT License"`, and changing them changes no
other declared field of the produced descriptor. -/
theorem c8_authorship_frame :
    lookupArg "author" setupArgs = some (.str "Marco Peise") ∧
    lookupArg "author_email" setupArgs = some (.str "mp@ise.tu-berlin.de") ∧
    lookupArg "license" setupArgs = some (.str "MIT License") ∧
    setupArgsWith "Marco Peise" "mp@ise.tu-berlin.de" "MIT License" = setupArgs ∧
    ∀ a e l : String,
      lookupArg "name" (setupArgsWith a e l) = lookupArg "name" setupArgs ∧
      lookupArg "version" (setupArgsWith a e l) = lookupArg "version" setupArgs ∧
      lookupArg "python_requires" (setupArgsWith a e l) =
        lookupArg "python_requires" setupArgs ∧
      lookupArg "packages" (setupArgsWith a e l) = lookupArg "packages" setupArgs ∧
      lookupArg "entry_points" (setupArgsWith a e l) =
        lookupArg "entry_points" setupArgs :=
  ⟨rfl, rfl, rfl, rfl, fun _ _ _ => ⟨rfl, rfl, rfl, rfl, rfl⟩⟩

/-- Claim C9: the exclusion list is exactly `["docs", "tests*"]`; the package
name `"tests"` is excluded (the glob `"tests*"` matches `"tests"` itself)
while `"docs.subpkg"` is not excluded (the pattern `"docs"` matches only the
name `"docs"` exactly). -/
theorem c9_exclusion_edge_cases :
    excludePatterns = ["docs", "tests*"] ∧
    isExcluded "tests" = true ∧
    isExcluded "docs.subpkg" = false := by
  exact ⟨by decide, by decide, by decide⟩

/-- Claim C10: the declared requirement `">=3"` is satisfied by every
language version whose major component is at least 3 (including 3.0, for any
minor component) and by no version whose major component is less than 3. -/
theorem c10_python_requires_semantics (major minor : Nat) :
    satisfiesRequirement pythonRequires [major, minor] = true ↔ 3 ≤ major := by
  have h : satisfiesRequirement pythonRequires [major, minor] =
      !(cmpVer [major, minor] [3] == Ordering.lt) := rfl
  rw [h]
  by_cases h1 : major < 3
  · have hc : cmpVer [major, minor] [3] = .lt := by simp [cmpVer, h1]
    rw [hc]
    exact iff_of_false (by decide) (by omega)
  · by_cases h2 : 3 < major
    · have hc : cmpVer [major, minor] [3] = .gt := by simp [cmpVer, h1, h2]
      rw [hc]
      exact iff_of_true (by decide) (by omega)
    · have h3 : major = 3 := by omega
      subst h3
      by_cases h4 : minor = 0
      · have hc : cmpVer [3, minor] [3] = .eq := by simp [cmpVer, h4, allZero]
        rw [hc]
        exact iff_of_true (by decide) (by omega)
      · have hc : cmpVer [3, minor] [3] = .gt := by simp [cmpVer, h4]
        rw [hc]
        exact iff_of_true (by decide) (by omega)
